import Mathlib

set_option maxRecDepth 8000

/-!
Shallow embedding of the SQL query builder of the video-analytics bot
(src/nl/schemas.py and src/analytics/query_builder.py), together with
theorems checking the specification's claims about it.

The data model (enums, filters, `QueryRequest`) mirrors `nl/schemas.py`;
the compiler (`build_sql` and its helpers `_build_select`,
`_build_date_filter`, `_build_comparison_filter`) mirrors
`analytics/query_builder.py` line by line.  Python exceptions are
modelled with `Except`, Python `None`/empty-string truthiness with
`truthy`, Python `date`/`datetime` objects with `PyDate`/`PyDateTime`,
and the f-string SQL assembly with explicit string concatenation.
-/

/-- `TableType` enum of `nl/schemas.py` (`videos`, `snapshots`). -/
inductive TableType
  | videos
  | snapshots
deriving DecidableEq

/-- The `.value` of the `TableType` string enum. -/
def TableType.value : TableType → String
  | .videos => "videos"
  | .snapshots => "snapshots"

/-- `MetricType` enum of `nl/schemas.py` (`count`, `sum`, `distinct_count`). -/
inductive MetricType
  | count
  | sum
  | distinct_count
deriving DecidableEq

/-- `MetricField` enum of `nl/schemas.py`. -/
inductive MetricField
  | views
  | likes
  | comments
  | reports
  | delta_views
  | delta_likes
  | delta_comments
  | delta_reports
  | video_id
  | creator_id
  | video_created_at_date
  | created_at_date
deriving DecidableEq

/-- The `.value` of the `MetricField` string enum. -/
def MetricField.value : MetricField → String
  | .views => "views_count"
  | .likes => "likes_count"
  | .comments => "comments_count"
  | .reports => "reports_count"
  | .delta_views => "delta_views_count"
  | .delta_likes => "delta_likes_count"
  | .delta_comments => "delta_comments_count"
  | .delta_reports => "delta_reports_count"
  | .video_id => "video_id"
  | .creator_id => "creator_id"
  | .video_created_at_date => "video_created_at_date"
  | .created_at_date => "created_at_date"

/-- `DateFilter` pydantic model of `nl/schemas.py`: a free-form field name
plus three optional date strings. -/
structure DateFilter where
  field : String
  start_date : Option String
  end_date : Option String
  exact_date : Option String
deriving DecidableEq

/-- `ComparisonFilter` pydantic model of `nl/schemas.py`.  The `operator`
field is declared `str` in the source, with no validator attached. -/
structure ComparisonFilter where
  field : MetricField
  operator : String
  value : Int
deriving DecidableEq

/-- `QueryRequest` pydantic model of `nl/schemas.py`. -/
structure QueryRequest where
  table : TableType
  metric_type : MetricType
  metric_field : Option MetricField
  date_filter : Option DateFilter
  creator_id_filter : Option String
  comparison_filter : Option ComparisonFilter
  use_delta : Bool
deriving DecidableEq

/-- Python `datetime.date`: a calendar date. -/
structure PyDate where
  year : Nat
  month : Nat
  day : Nat
deriving DecidableEq

/-- Python `datetime.datetime`: a calendar date with a time of day. -/
structure PyDateTime where
  year : Nat
  month : Nat
  day : Nat
  hour : Nat
  minute : Nat
  second : Nat
  microsecond : Nat
deriving DecidableEq

/-- Result of `_parse_date_or_datetime`: either a `date` or a `datetime`. -/
inductive PyDateValue
  | d (d : PyDate)
  | dt (t : PyDateTime)
deriving DecidableEq

/-- A scalar SQL parameter value, as appended to the builder's `params`
list: a creator-id string, a comparison integer, or a date/datetime. -/
inductive SqlParam
  | str (s : String)
  | int (n : Int)
  | date (d : PyDate)
  | datetime (t : PyDateTime)
deriving DecidableEq

/-- The distinct `raise ValueError(...)` sites of `query_builder.py`
(and of the `datetime.replace` call it performs). -/
inductive CompileError
  | missingFieldSum
  | missingFieldDistinctCount
  | invalidOperator (op : String)
  | emptyDateFilter
  | invalidDate (s : String)
  | dayOutOfRange
deriving DecidableEq

/-- Python truthiness of an `Optional[str]`: `None` and `""` are falsy. -/
def truthy : Option String → Bool
  | none => false
  | some s => !(s == "")

/-- Numeric value of an ASCII digit character. -/
def digitVal (c : Char) : Nat := c.toNat - 48

/-- Two-digit decimal number from two digit characters. -/
def num2 (a b : Char) : Nat := 10 * digitVal a + digitVal b

/-- Four-digit decimal number from four digit characters. -/
def num4 (a b c d : Char) : Nat :=
  1000 * digitVal a + 100 * digitVal b + 10 * digitVal c + digitVal d

/-- Gregorian leap-year rule, as used by Python's `datetime`. -/
def isLeap (y : Nat) : Bool := (y % 4 == 0 && !(y % 100 == 0)) || y % 400 == 0

/-- Days in a month, as validated by Python's `datetime` constructors. -/
def daysInMonth (y m : Nat) : Nat :=
  if m == 2 then (if isLeap y then 29 else 28)
  else if m == 4 || m == 6 || m == 9 || m == 11 then 30
  else 31

/-- Python `datetime.replace(day=d)`: validates the new day against the
month length and raises `ValueError` when it is out of range. -/
def PyDateTime.replace_day (t : PyDateTime) (d : Nat) : Except CompileError PyDateTime :=
  if 1 ≤ d ∧ d ≤ daysInMonth t.year t.month then
    .ok (PyDateTime.mk t.year t.month d t.hour t.minute t.second t.microsecond)
  else .error CompileError.dayOutOfRange

/-- Python `s.replace('Z', '+00:00')` on the character list of `s`. -/
def replaceZ : List Char → List Char
  | [] => []
  | c :: cs =>
    if c == 'Z' then '+' :: '0' :: '0' :: ':' :: '0' :: '0' :: replaceZ cs
    else c :: replaceZ cs

/-- `date.fromisoformat` on the `YYYY-MM-DD` calendar-date format, with
Python's range validation of year, month and day. -/
def parse_date_iso (l : List Char) : Option PyDate :=
  match l with
  | [y1, y2, y3, y4, '-', m1, m2, '-', d1, d2] =>
    if (y1.isDigit && y2.isDigit && y3.isDigit && y4.isDigit &&
        m1.isDigit && m2.isDigit && d1.isDigit && d2.isDigit) then
      let y := num4 y1 y2 y3 y4
      let m := num2 m1 m2
      let d := num2 d1 d2
      if 1 ≤ y ∧ 1 ≤ m ∧ m ≤ 12 ∧ 1 ≤ d ∧ d ≤ daysInMonth y m then
        some (PyDate.mk y m d)
      else none
    else none
  | _ => none

/-- Time-of-day part `HH:MM` or `HH:MM:SS` of an ISO timestamp, with
Python's range validation. -/
def parse_time_iso (l : List Char) : Option (Nat × Nat × Nat) :=
  match l with
  | [h1, h2, ':', mi1, mi2] =>
    if (h1.isDigit && h2.isDigit && mi1.isDigit && mi2.isDigit) then
      let h := num2 h1 h2
      let mi := num2 mi1 mi2
      if h ≤ 23 ∧ mi ≤ 59 then some (h, mi, 0) else none
    else none
  | [h1, h2, ':', mi1, mi2, ':', s1, s2] =>
    if (h1.isDigit && h2.isDigit && mi1.isDigit && mi2.isDigit && s1.isDigit && s2.isDigit) then
      let h := num2 h1 h2
      let mi := num2 mi1 mi2
      let se := num2 s1 s2
      if h ≤ 23 ∧ mi ≤ 59 ∧ se ≤ 59 then some (h, mi, se) else none
    else none
  | _ => none

/-- `datetime.fromisoformat` on the `YYYY-MM-DD{T or space}HH:MM[:SS]`
timestamp formats used by the program (the formats its own `strptime`
fallback list names), with Python's range validation. -/
def parse_datetime_iso (l : List Char) : Option PyDateTime :=
  match l with
  | y1 :: y2 :: y3 :: y4 :: '-' :: m1 :: m2 :: '-' :: d1 :: d2 :: sep :: rest =>
    if sep == 'T' || sep == ' ' then
      match parse_date_iso [y1, y2, y3, y4, '-', m1, m2, '-', d1, d2] with
      | some d =>
        match parse_time_iso rest with
        | some (h, mi, se) => some (PyDateTime.mk d.year d.month d.day h mi se 0)
        | none => none
      | none => none
    else none
  | _ => none

/-- `QueryBuilder._parse_date_or_datetime`: a string containing `T` or a
space is parsed as a timestamp (after replacing `Z` with `+00:00`),
otherwise as a bare calendar date; an unparseable string raises
`ValueError`.  The `strptime` fallback loop of the source only retries
the same three formats already covered here, so it is modelled as the
final `ValueError`. -/
def parse_date_or_datetime (s : String) : Except CompileError PyDateValue :=
  if s.data.contains 'T' || s.data.contains ' ' then
    match parse_datetime_iso (replaceZ s.data) with
    | some t => .ok (.dt t)
    | none => .error (.invalidDate s)
  else
    match parse_date_iso s.data with
    | some d => .ok (.d d)
    | none => .error (.invalidDate s)

/-- The `table_name_map` lookup of `build_sql` (lines 24-28): logical
table name to physical table name. -/
def table_name (q : QueryRequest) : String :=
  match q.table with
  | .videos => "videos"
  | .snapshots => "video_snapshots"

/-- Line 36: a JOIN is needed when a (truthy) creator filter is present
and the physical table is `video_snapshots`. -/
def needs_join (q : QueryRequest) : Bool :=
  truthy q.creator_id_filter && (table_name q == "video_snapshots")

/-- Line 39: the table name handed to `_build_select` (set only when a
JOIN is present). -/
def select_table (q : QueryRequest) : Option String :=
  if needs_join q then some (table_name q) else none

/-- Lines 43-46: the FROM part, with the implicit INNER JOIN when needed. -/
def from_part (q : QueryRequest) : String :=
  if needs_join q then
    "FROM " ++ table_name q ++ " INNER JOIN videos ON " ++ table_name q ++ ".video_id = videos.id"
  else
    "FROM " ++ table_name q

/-- Lines 51-57: rebuild the date filter with the field qualified by the
physical table name when a JOIN is present. -/
def qualify_df (q : QueryRequest) (df : DateFilter) : DateFilter :=
  DateFilter.mk
    (if needs_join q then table_name q ++ "." ++ df.field else df.field)
    df.start_date df.end_date df.exact_date

/-- `QueryBuilder._build_select` (lines 98-142). -/
def _build_select (q : QueryRequest) (tn : Option String) : Except CompileError String :=
  match q.metric_type with
  | .count => .ok "SELECT COUNT(*)"
  | .sum =>
    match q.metric_field with
    | none => .error .missingFieldSum
    | some mf =>
      .ok ("SELECT SUM(" ++
            (match tn with | some t => t ++ "." ++ mf.value | none => mf.value) ++ ")")
  | .distinct_count =>
    match q.metric_field with
    | none => .error .missingFieldDistinctCount
    | some mf =>
      if mf.value == "video_created_at_date" then
        .ok ("SELECT COUNT(DISTINCT DATE(" ++
              (match tn with
               | some t => t ++ "." ++ "video_created_at"
               | none => "video_created_at") ++ "))")
      else if mf.value == "created_at_date" then
        .ok ("SELECT COUNT(DISTINCT DATE(" ++
              (match tn with
               | some t => t ++ "." ++ "created_at"
               | none => "created_at") ++ "))")
      else
        .ok ("SELECT COUNT(DISTINCT " ++
              (match tn with | some t => t ++ "." ++ mf.value | none => mf.value) ++ ")")

/-- The `valid_operators` list of `_build_comparison_filter` (line 267). -/
def valid_operators : List String := [">", "<", ">=", "<=", "=", "!="]

/-- `QueryBuilder._build_comparison_filter` (lines 249-275): Python's
`field_override if field_override else ...` treats an empty override as
absent. -/
def _build_comparison_filter (cf : ComparisonFilter) (param_index : Nat)
    (field_override : Option String) : Except CompileError (String × List SqlParam × Nat) :=
  if valid_operators.contains cf.operator then
    .ok ((match field_override with
          | some f => if f == "" then cf.field.value else f
          | none => cf.field.value) ++ " " ++ cf.operator ++ " $" ++ Nat.repr param_index,
         [SqlParam.int cf.value], param_index + 1)
  else .error (.invalidOperator cf.operator)

/-- Whether a parsed date value is a `datetime` (Python `isinstance`). -/
def PyDateValue.isDT : PyDateValue → Bool
  | .d _ => false
  | .dt _ => true

/-- `datetime.combine(d, time.min)` promotion of a start bound. -/
def PyDateValue.toStartDT : PyDateValue → PyDateTime
  | .dt t => t
  | .d x => PyDateTime.mk x.year x.month x.day 0 0 0 0

/-- `datetime.combine(d, time.max)` promotion of an end bound. -/
def PyDateValue.toEndDT : PyDateValue → PyDateTime
  | .dt t => t
  | .d x => PyDateTime.mk x.year x.month x.day 23 59 59 999999

/-- A parsed date value as a SQL parameter. -/
def PyDateValue.toParam : PyDateValue → SqlParam
  | .d x => .date x
  | .dt t => .datetime t

/-- `QueryBuilder._build_date_filter` (lines 174-247), with Python string
truthiness on the three optional date strings and exceptions as errors. -/
def _build_date_filter (df : DateFilter) (param_index : Nat) :
    Except CompileError (String × List SqlParam × Nat) :=
  if truthy df.exact_date then
    match parse_date_or_datetime (df.exact_date.getD "") with
    | .error e => .error e
    | .ok (.dt t) =>
      match (PyDateTime.mk t.year t.month t.day 0 0 0 0).replace_day (t.day + 1) with
      | .error e => .error e
      | .ok end_dt =>
        .ok (df.field ++ " >= $" ++ Nat.repr param_index ++ " AND " ++ df.field ++ " < $" ++
               Nat.repr (param_index + 1),
             [SqlParam.datetime (PyDateTime.mk t.year t.month t.day 0 0 0 0),
              SqlParam.datetime end_dt], param_index + 2)
    | .ok (.d x) =>
      .ok ("DATE(" ++ df.field ++ ") = $" ++ Nat.repr param_index,
           [SqlParam.date x], param_index + 1)
  else if truthy df.start_date && truthy df.end_date then
    match parse_date_or_datetime (df.start_date.getD "") with
    | .error e => .error e
    | .ok start_v =>
      match parse_date_or_datetime (df.end_date.getD "") with
      | .error e => .error e
      | .ok end_v =>
        if start_v.isDT || end_v.isDT then
          .ok (df.field ++ " >= $" ++ Nat.repr param_index ++ " AND " ++ df.field ++ " <= $" ++
                 Nat.repr (param_index + 1),
               [SqlParam.datetime start_v.toStartDT, SqlParam.datetime end_v.toEndDT],
               param_index + 2)
        else
          .ok ("DATE(" ++ df.field ++ ") >= $" ++ Nat.repr param_index ++ " AND DATE(" ++
                 df.field ++ ") <= $" ++ Nat.repr (param_index + 1),
               [start_v.toParam, end_v.toParam], param_index + 2)
  else if truthy df.start_date then
    match parse_date_or_datetime (df.start_date.getD "") with
    | .error e => .error e
    | .ok (.dt t) =>
      .ok (df.field ++ " >= $" ++ Nat.repr param_index, [SqlParam.datetime t], param_index + 1)
    | .ok (.d x) =>
      .ok ("DATE(" ++ df.field ++ ") >= $" ++ Nat.repr param_index,
           [SqlParam.date x], param_index + 1)
  else if truthy df.end_date then
    match parse_date_or_datetime (df.end_date.getD "") with
    | .error e => .error e
    | .ok (.dt t) =>
      .ok (df.field ++ " <= $" ++ Nat.repr param_index,
           [SqlParam.datetime (if t.hour == 0 && t.minute == 0 then
                                 PyDateTime.mk t.year t.month t.day 23 59 59 t.microsecond
                               else t)], param_index + 1)
    | .ok (.d x) =>
      .ok ("DATE(" ++ df.field ++ ") <= $" ++ Nat.repr param_index,
           [SqlParam.date x], param_index + 1)
  else .error .emptyDateFilter

/-- Python `" AND ".join(...)`. -/
def joinAnd : List String → String
  | [] => ""
  | [w] => w
  | w :: ws => w ++ " AND " ++ joinAnd ws

/-- Lines 88-91: the WHERE part ("" when no filter produced a fragment). -/
def mkWhere (parts : List String) : String :=
  match parts with
  | [] => ""
  | _ => "WHERE " ++ joinAnd parts

/-- Lines 48-62 of `build_sql`: the date filter (first filter, so its
placeholders start at the global counter value 1). -/
def date_step (q : QueryRequest) : Except CompileError (List String × List SqlParam × Nat) :=
  match q.date_filter with
  | none => .ok ([], [], 1)
  | some df =>
    match _build_date_filter (qualify_df q df) 1 with
    | .error e => .error e
    | .ok (w, ps, i) => .ok ([w], ps, i)

/-- Lines 64-74 of `build_sql`: the creator filter, qualified through the
join when present, dropped when falsy. -/
def creator_step (q : QueryRequest) (acc : List String × List SqlParam × Nat) :
    List String × List SqlParam × Nat :=
  if needs_join q then
    (acc.1 ++ ["videos.creator_id = $" ++ Nat.repr acc.2.2],
     acc.2.1 ++ [SqlParam.str (q.creator_id_filter.getD "")], acc.2.2 + 1)
  else if truthy q.creator_id_filter then
    (acc.1 ++ ["creator_id = $" ++ Nat.repr acc.2.2],
     acc.2.1 ++ [SqlParam.str (q.creator_id_filter.getD "")], acc.2.2 + 1)
  else acc

/-- Lines 76-86 of `build_sql`: the comparison filter, its field
qualified by the physical table name when a join is present. -/
def comp_step (q : QueryRequest) (acc : List String × List SqlParam × Nat) :
    Except CompileError (List String × List SqlParam × Nat) :=
  match q.comparison_filter with
  | none => .ok acc
  | some cf =>
    match _build_comparison_filter cf acc.2.2
        (some (if needs_join q then table_name q ++ "." ++ cf.field.value
               else cf.field.value)) with
    | .error e => .error e
    | .ok (w, ps, i) => .ok (acc.1 ++ [w], acc.2.1 ++ ps, i)

/-- Lines 48-86 of `build_sql`: the date, creator and comparison filters,
in that fixed order, accumulating WHERE fragments, parameters and the
global placeholder counter (which starts at 1). -/
def build_filters (q : QueryRequest) : Except CompileError (List String × List SqlParam × Nat) :=
  match date_step q with
  | .error e => .error e
  | .ok acc => comp_step q (creator_step q acc)

/-- `QueryBuilder.build_sql` (lines 12-96): SELECT is built first (so its
exceptions take priority), then the filters, then the final assembly
`select \n from \n where`. -/
def build_sql (q : QueryRequest) : Except CompileError (String × List SqlParam) :=
  match _build_select q (select_table q) with
  | .error e => .error e
  | .ok select_part =>
    match build_filters q with
    | .error e => .error e
    | .ok (parts, params, _) =>
      .ok (select_part ++ "\n" ++ from_part q ++ "\n" ++ mkWhere parts, params)

/-- Inverse of `MetricField.value`: pydantic's enum-membership coercion of
an incoming string. -/
def MetricField.fromString : String → Option MetricField
  | "views_count" => some .views
  | "likes_count" => some .likes
  | "comments_count" => some .comments
  | "reports_count" => some .reports
  | "delta_views_count" => some .delta_views
  | "delta_likes_count" => some .delta_likes
  | "delta_comments_count" => some .delta_comments
  | "delta_reports_count" => some .delta_reports
  | "video_id" => some .video_id
  | "creator_id" => some .creator_id
  | "video_created_at_date" => some .video_created_at_date
  | "created_at_date" => some .created_at_date
  | _ => none

/-- Pydantic construction/validation of `ComparisonFilter` as declared in
`nl/schemas.py`: `field` must be a member of the `MetricField` enum,
`value` an integer, and `operator` is a plain `str` field with no
validator, so any operator string is accepted. -/
def ComparisonFilter.model_validate (field : String) (operator : String) (value : Int) :
    Option ComparisonFilter :=
  match MetricField.fromString field with
  | some f => some (ComparisonFilter.mk f operator value)
  | none => none

/-- State of the positional-placeholder scanner: outside a placeholder,
just after a dollar sign, or inside the digits of placeholder `n`. -/
inductive PHState
  | out
  | dollar
  | num (n : Nat)
deriving DecidableEq

/-- One scanner step: emits a finished placeholder number (if any) and
the next state. -/
def stepPH (st : PHState) (c : Char) : List Nat × PHState :=
  match st with
  | .out => if c == '$' then ([], .dollar) else ([], .out)
  | .dollar =>
    if c.isDigit then ([], .num (digitVal c))
    else if c == '$' then ([], .dollar) else ([], .out)
  | .num n =>
    if c.isDigit then ([], .num (10 * n + digitVal c))
    else if c == '$' then ([n], .dollar) else ([n], .out)

/-- Run the scanner over a character list, collecting the finished
placeholder numbers in order and returning the final state. -/
def scanP : PHState → List Char → List Nat × PHState
  | st, [] => ([], st)
  | st, c :: cs =>
    let p := stepPH st c
    let r := scanP p.2 cs
    (p.1 ++ r.1, r.2)

/-- A pending placeholder at the end of the text. -/
def phFlush : PHState → List Nat
  | .num n => [n]
  | _ => []

/-- All `$n` positional placeholders occurring in a SQL string, in order
of occurrence. -/
def sqlPlaceholders (s : String) : List Nat :=
  (scanP .out s.data).1 ++ phFlush (scanP .out s.data).2

/-- No dollar sign anywhere in the string. -/
def noDollar (s : String) : Bool := s.data.all (fun c => !(c == '$'))

/-- The request's date-filter field (an unchecked free-form string in the
request model) contains no dollar sign. -/
def dateFieldOk (q : QueryRequest) : Bool :=
  match q.date_filter with
  | none => true
  | some df => noDollar df.field

/-- A WHERE fragment `w` carrying exactly the consecutive placeholders
`i, i+1, ..., i+n` and ending immediately after the digits of the last
one: the scanner emits all but the last and is left holding the last. -/
def FragSpec (w : String) (i n : Nat) : Prop :=
  scanP .out w.data = (List.range' i n, .num (i + n))

/-- Invariant of the filter-accumulation loop of `build_sql`: either no
fragment has been produced yet and the counter is still 1, or the joined
fragments carry exactly the placeholders `1..n+1`, the parameter list
has length `n+1`, and the counter stands at `n+2`. -/
def AccSpec (parts : List String) (ps : List SqlParam) (i : Nat) : Prop :=
  (parts = [] ∧ ps = [] ∧ i = 1)
  ∨ (∃ n, ps.length = n + 1 ∧ i = n + 2 ∧ FragSpec (joinAnd parts) 1 n)

/-- The SELECT stage of `build_sql` succeeds on this request. -/
def select_ok (q : QueryRequest) : Bool :=
  (_build_select q (select_table q)).toOption.isSome

/-- The date-filter stage of `build_sql` succeeds on this request (or
there is no date filter). -/
def date_filter_ok (q : QueryRequest) : Bool :=
  match q.date_filter with
  | none => true
  | some df => (_build_date_filter (qualify_df q df) 1).toOption.isSome


theorem scanP_append (st : PHState) (a b : List Char) :
    scanP st (a ++ b)
      = ((scanP st a).1 ++ (scanP (scanP st a).2 b).1, (scanP (scanP st a).2 b).2) := by
  induction a generalizing st with
  | nil => simp [scanP]
  | cons c cs ih =>
    simp only [List.cons_append, scanP]
    rw [List.append_eq, ih]
    simp [List.append_assoc]

theorem scanP_out_noDollar (l : List Char) (h : l.all (fun c => !(c == '$')) = true) :
    scanP .out l = ([], .out) := by
  induction l with
  | nil => rfl
  | cons c cs ih =>
    simp only [List.all_cons, Bool.and_eq_true] at h
    have hc : (c == '$') = false := by simpa using h.1
    simp [scanP, stepPH, hc, ih h.2]

theorem noDollar_append (a b : String) :
    noDollar (a ++ b) = (noDollar a && noDollar b) := by
  simp [noDollar, String.data_append, List.all_append]

theorem scanP_str_pfx (a : String) (ha : noDollar a = true) (b : List Char) :
    scanP .out (a.data ++ b) = scanP .out b := by
  rw [scanP_append, scanP_out_noDollar a.data ha]
  simp

theorem scanP_and_flush (k : Nat) (b : List Char) :
    scanP (.num k) (" AND ".data ++ b) = (k :: (scanP .out b).1, (scanP .out b).2) := by
  rw [scanP_append]
  have h : scanP (.num k) (" AND ".data) = ([k], .out) := rfl
  rw [h]
  simp

theorem fragSpec_join {w₁ w₂ : String} {i m n : Nat}
    (h₁ : FragSpec w₁ i m) (h₂ : FragSpec w₂ (i + m + 1) n) :
    FragSpec (w₁ ++ " AND " ++ w₂) i (m + n + 1) := by
  unfold FragSpec at h₁ h₂ ⊢
  have hd : (w₁ ++ " AND " ++ w₂).data = w₁.data ++ (" AND ".data ++ w₂.data) := by
    simp [String.data_append]
  rw [hd, scanP_append, h₁]
  simp only
  rw [scanP_and_flush, h₂]
  simp only
  have e1 : (i + m) :: List.range' (i + m + 1) n = List.range' (i + m) (n + 1) :=
    (List.range'_succ (i + m) n 1).symm
  rw [e1]
  have e2 : List.range' i m ++ List.range' (i + m) (n + 1) = List.range' i (n + 1 + m) := by
    have e := List.range'_append i m (n + 1) 1
    rw [one_mul] at e
    exact e
  rw [e2, show n + 1 + m = m + n + 1 by omega, show i + m + 1 + n = i + (m + n + 1) by omega]

theorem metricField_noDollar (mf : MetricField) : noDollar mf.value = true := by
  cases mf <;> rfl

theorem frag_exact_dt (f : String) (hf : noDollar f = true) :
    FragSpec (f ++ " >= $" ++ Nat.repr 1 ++ " AND " ++ f ++ " < $" ++ Nat.repr (1 + 1)) 1 1 := by
  unfold FragSpec
  have hd : (f ++ " >= $" ++ Nat.repr 1 ++ " AND " ++ f ++ " < $" ++ Nat.repr (1 + 1)).data
      = f.data ++ (" >= $1 AND ".data ++ (f.data ++ " < $2".data)) := by
    simp only [String.data_append, List.append_assoc]
    rfl
  rw [hd, scanP_str_pfx f hf, scanP_append]
  have h1 : scanP .out (" >= $1 AND ".data) = ([1], .out) := rfl
  rw [h1]
  dsimp only
  rw [scanP_str_pfx f hf]
  have h2 : scanP .out (" < $2".data) = ([], .num 2) := rfl
  rw [h2]
  rfl

theorem frag_exact_d (f : String) (hf : noDollar f = true) :
    FragSpec ("DATE(" ++ f ++ ") = $" ++ Nat.repr 1) 1 0 := by
  unfold FragSpec
  have hd : ("DATE(" ++ f ++ ") = $" ++ Nat.repr 1).data
      = "DATE(".data ++ (f.data ++ ") = $1".data) := by
    simp only [String.data_append, List.append_assoc]
    rfl
  rw [hd, scanP_str_pfx "DATE(" rfl, scanP_str_pfx f hf]
  rfl

theorem frag_range_dt (f : String) (hf : noDollar f = true) :
    FragSpec (f ++ " >= $" ++ Nat.repr 1 ++ " AND " ++ f ++ " <= $" ++ Nat.repr (1 + 1)) 1 1 := by
  unfold FragSpec
  have hd : (f ++ " >= $" ++ Nat.repr 1 ++ " AND " ++ f ++ " <= $" ++ Nat.repr (1 + 1)).data
      = f.data ++ (" >= $1 AND ".data ++ (f.data ++ " <= $2".data)) := by
    simp only [String.data_append, List.append_assoc]
    rfl
  rw [hd, scanP_str_pfx f hf, scanP_append]
  have h1 : scanP .out (" >= $1 AND ".data) = ([1], .out) := rfl
  rw [h1]
  dsimp only
  rw [scanP_str_pfx f hf]
  have h2 : scanP .out (" <= $2".data) = ([], .num 2) := rfl
  rw [h2]
  rfl

theorem frag_range_d (f : String) (hf : noDollar f = true) :
    FragSpec ("DATE(" ++ f ++ ") >= $" ++ Nat.repr 1 ++ " AND DATE(" ++ f ++ ") <= $" ++
        Nat.repr (1 + 1)) 1 1 := by
  unfold FragSpec
  have hd : ("DATE(" ++ f ++ ") >= $" ++ Nat.repr 1 ++ " AND DATE(" ++ f ++ ") <= $" ++
        Nat.repr (1 + 1)).data
      = "DATE(".data ++ (f.data ++ (") >= $1 AND DATE(".data ++ (f.data ++ ") <= $2".data))) := by
    simp only [String.data_append, List.append_assoc]
    rfl
  rw [hd, scanP_str_pfx "DATE(" rfl, scanP_str_pfx f hf, scanP_append]
  have h1 : scanP .out (") >= $1 AND DATE(".data) = ([1], .out) := rfl
  rw [h1]
  dsimp only
  rw [scanP_str_pfx f hf]
  have h2 : scanP .out (") <= $2".data) = ([], .num 2) := rfl
  rw [h2]
  rfl

theorem frag_start_dt (f : String) (hf : noDollar f = true) :
    FragSpec (f ++ " >= $" ++ Nat.repr 1) 1 0 := by
  unfold FragSpec
  have hd : (f ++ " >= $" ++ Nat.repr 1).data = f.data ++ " >= $1".data := by
    simp only [String.data_append, List.append_assoc]
    rfl
  rw [hd, scanP_str_pfx f hf]
  rfl

theorem frag_start_d (f : String) (hf : noDollar f = true) :
    FragSpec ("DATE(" ++ f ++ ") >= $" ++ Nat.repr 1) 1 0 := by
  unfold FragSpec
  have hd : ("DATE(" ++ f ++ ") >= $" ++ Nat.repr 1).data
      = "DATE(".data ++ (f.data ++ ") >= $1".data) := by
    simp only [String.data_append, List.append_assoc]
    rfl
  rw [hd, scanP_str_pfx "DATE(" rfl, scanP_str_pfx f hf]
  rfl

theorem frag_end_dt (f : String) (hf : noDollar f = true) :
    FragSpec (f ++ " <= $" ++ Nat.repr 1) 1 0 := by
  unfold FragSpec
  have hd : (f ++ " <= $" ++ Nat.repr 1).data = f.data ++ " <= $1".data := by
    simp only [String.data_append, List.append_assoc]
    rfl
  rw [hd, scanP_str_pfx f hf]
  rfl

theorem frag_end_d (f : String) (hf : noDollar f = true) :
    FragSpec ("DATE(" ++ f ++ ") <= $" ++ Nat.repr 1) 1 0 := by
  unfold FragSpec
  have hd : ("DATE(" ++ f ++ ") <= $" ++ Nat.repr 1).data
      = "DATE(".data ++ (f.data ++ ") <= $1".data) := by
    simp only [String.data_append, List.append_assoc]
    rfl
  rw [hd, scanP_str_pfx "DATE(" rfl, scanP_str_pfx f hf]
  rfl

theorem comp_frag_of (fld op : String) (k : Nat) (hfld : noDollar fld = true)
    (hop : scanP .out (" ".data ++ (op.data ++ (" $".data ++ (Nat.repr k).data)))
        = ([], .num k)) :
    FragSpec (fld ++ " " ++ op ++ " $" ++ Nat.repr k) k 0 := by
  unfold FragSpec
  have hd : (fld ++ " " ++ op ++ " $" ++ Nat.repr k).data
      = fld.data ++ (" ".data ++ (op.data ++ (" $".data ++ (Nat.repr k).data))) := by
    simp only [String.data_append, List.append_assoc]
  rw [hd, scanP_str_pfx fld hfld, hop]
  rfl

theorem mem_valid_operators (op : String) (h : valid_operators.contains op = true) :
    op = ">" ∨ op = "<" ∨ op = ">=" ∨ op = "<=" ∨ op = "=" ∨ op = "!=" := by
  have hm : op ∈ valid_operators := List.mem_of_elem_eq_true h
  simpa [valid_operators] using hm

theorem table_name_noDollar (q : QueryRequest) : noDollar (table_name q) = true := by
  rcases q with ⟨t, m, mf, df, c, cmp, b⟩
  cases t <;> rfl

theorem date_frag_spec (df : DateFilter) (w : String) (ps : List SqlParam) (j : Nat)
    (hnd : noDollar df.field = true)
    (h : _build_date_filter df 1 = .ok (w, ps, j)) :
    ∃ n, (n = 0 ∨ n = 1) ∧ ps.length = n + 1 ∧ j = n + 2 ∧ FragSpec w 1 n := by
  unfold _build_date_filter at h
  split at h
  · -- exact-date branch
    split at h
    · exact Except.noConfusion h
    · split at h
      · exact Except.noConfusion h
      · simp only [Except.ok.injEq, Prod.mk.injEq] at h
        obtain ⟨hw, hps, hj⟩ := h
        subst hw; subst hps; subst hj
        exact ⟨1, Or.inr rfl, rfl, rfl, frag_exact_dt df.field hnd⟩
    · simp only [Except.ok.injEq, Prod.mk.injEq] at h
      obtain ⟨hw, hps, hj⟩ := h
      subst hw; subst hps; subst hj
      exact ⟨0, Or.inl rfl, rfl, rfl, frag_exact_d df.field hnd⟩
  · split at h
    · -- two-bound range branch
      split at h
      · exact Except.noConfusion h
      · split at h
        · exact Except.noConfusion h
        · split at h
          · simp only [Except.ok.injEq, Prod.mk.injEq] at h
            obtain ⟨hw, hps, hj⟩ := h
            subst hw; subst hps; subst hj
            exact ⟨1, Or.inr rfl, rfl, rfl, frag_range_dt df.field hnd⟩
          · simp only [Except.ok.injEq, Prod.mk.injEq] at h
            obtain ⟨hw, hps, hj⟩ := h
            subst hw; subst hps; subst hj
            exact ⟨1, Or.inr rfl, rfl, rfl, frag_range_d df.field hnd⟩
    · split at h
      · -- start-only branch
        split at h
        · exact Except.noConfusion h
        · simp only [Except.ok.injEq, Prod.mk.injEq] at h
          obtain ⟨hw, hps, hj⟩ := h
          subst hw; subst hps; subst hj
          exact ⟨0, Or.inl rfl, rfl, rfl, frag_start_dt df.field hnd⟩
        · simp only [Except.ok.injEq, Prod.mk.injEq] at h
          obtain ⟨hw, hps, hj⟩ := h
          subst hw; subst hps; subst hj
          exact ⟨0, Or.inl rfl, rfl, rfl, frag_start_d df.field hnd⟩
      · split at h
        · -- end-only branch
          split at h
          · exact Except.noConfusion h
          · simp only [Except.ok.injEq, Prod.mk.injEq] at h
            obtain ⟨hw, hps, hj⟩ := h
            subst hw; subst hps; subst hj
            exact ⟨0, Or.inl rfl, rfl, rfl, frag_end_dt df.field hnd⟩
          · simp only [Except.ok.injEq, Prod.mk.injEq] at h
            obtain ⟨hw, hps, hj⟩ := h
            subst hw; subst hps; subst hj
            exact ⟨0, Or.inl rfl, rfl, rfl, frag_end_d df.field hnd⟩
        · exact Except.noConfusion h

theorem creator_frag_spec (k : Nat) (hk : k = 1 ∨ k = 2 ∨ k = 3) :
    FragSpec ("videos.creator_id = $" ++ Nat.repr k) k 0
    ∧ FragSpec ("creator_id = $" ++ Nat.repr k) k 0 := by
  rcases hk with h | h | h <;> subst h <;> exact ⟨rfl, rfl⟩

theorem comp_frag_spec (cf : ComparisonFilter) (k : Nat) (fo : String)
    (hfo : noDollar fo = true)
    (hk : k = 1 ∨ k = 2 ∨ k = 3 ∨ k = 4)
    (w : String) (ps : List SqlParam) (j : Nat)
    (h : _build_comparison_filter cf k (some fo) = .ok (w, ps, j)) :
    ps.length = 1 ∧ j = k + 1 ∧ FragSpec w k 0 := by
  unfold _build_comparison_filter at h
  split at h
  · rename_i hop
    simp only [Except.ok.injEq, Prod.mk.injEq] at h
    obtain ⟨hw, hps, hj⟩ := h
    subst hw; subst hps; subst hj
    refine ⟨rfl, rfl, ?_⟩
    have hfld : noDollar (if fo == "" then cf.field.value else fo) = true := by
      split
      · exact metricField_noDollar cf.field
      · exact hfo
    have hops := mem_valid_operators cf.operator hop
    rcases hk with hk | hk | hk | hk <;> subst hk <;>
      rcases hops with ho | ho | ho | ho | ho | ho <;> rw [ho] <;>
        exact comp_frag_of _ _ _ hfld rfl
  · exact Except.noConfusion h

theorem joinAnd_append_single (parts : List String) (w : String) (h : parts ≠ []) :
    joinAnd (parts ++ [w]) = joinAnd parts ++ " AND " ++ w := by
  induction parts with
  | nil => exact absurd rfl h
  | cons a as ih =>
    cases as with
    | nil => rfl
    | cons b bs =>
      have e : joinAnd ((a :: b :: bs) ++ [w]) = a ++ " AND " ++ joinAnd ((b :: bs) ++ [w]) := rfl
      rw [e, ih (by simp)]
      have e2 : joinAnd (a :: b :: bs) = a ++ " AND " ++ joinAnd (b :: bs) := rfl
      rw [e2]
      simp [String.append_assoc]

theorem accSpec_snoc (parts : List String) (ps : List SqlParam) (i : Nat) (w : String)
    (p : SqlParam) (hacc : AccSpec parts ps i) (hw : FragSpec w i 0) :
    AccSpec (parts ++ [w]) (ps ++ [p]) (i + 1) := by
  rcases hacc with ⟨hp, hq, hi⟩ | ⟨n, hlen, hi, hfs⟩
  · subst hp; subst hq; subst hi
    exact Or.inr ⟨0, by simp, rfl, hw⟩
  · subst hi
    refine Or.inr ⟨n + 1, by simp [hlen], rfl, ?_⟩
    have hne : parts ≠ [] := by
      intro hcon
      subst hcon
      simp [FragSpec, joinAnd, scanP] at hfs
    rw [joinAnd_append_single parts w hne]
    have hw' : FragSpec w (1 + n + 1) 0 := by
      rw [show 1 + n + 1 = n + 2 by omega]
      exact hw
    have hj := fragSpec_join hfs hw'
    rw [show n + 0 + 1 = n + 1 by omega] at hj
    exact hj

theorem qualify_df_noDollar (q : QueryRequest) (df : DateFilter)
    (h : noDollar df.field = true) : noDollar (qualify_df q df).field = true := by
  show noDollar (if needs_join q then table_name q ++ "." ++ df.field else df.field) = true
  split
  · have hdot : noDollar "." = true := rfl
    simp [noDollar_append, table_name_noDollar, hdot, h]
  · exact h

theorem date_step_spec (q : QueryRequest) (acc : List String × List SqlParam × Nat)
    (hdf : dateFieldOk q = true)
    (h : date_step q = .ok acc) :
    AccSpec acc.1 acc.2.1 acc.2.2 ∧ (acc.2.2 = 1 ∨ acc.2.2 = 2 ∨ acc.2.2 = 3) := by
  unfold date_step at h
  split at h
  · simp only [Except.ok.injEq] at h
    subst h
    exact ⟨Or.inl ⟨rfl, rfl, rfl⟩, Or.inl rfl⟩
  · rename_i df heq
    unfold dateFieldOk at hdf
    rw [heq] at hdf
    have hnd := qualify_df_noDollar q df hdf
    split at h
    · exact Except.noConfusion h
    · rename_i w ps i heq2
      obtain ⟨n, hn01, hlen, hj, hfs⟩ := date_frag_spec _ w ps i hnd heq2
      simp only [Except.ok.injEq] at h
      subst h
      constructor
      · exact Or.inr ⟨n, hlen, hj, hfs⟩
      · rcases hn01 with hn | hn <;> subst hn <;> subst hj
        · exact Or.inr (Or.inl rfl)
        · exact Or.inr (Or.inr rfl)

theorem creator_step_spec (q : QueryRequest) (acc : List String × List SqlParam × Nat)
    (hacc : AccSpec acc.1 acc.2.1 acc.2.2)
    (hi : acc.2.2 = 1 ∨ acc.2.2 = 2 ∨ acc.2.2 = 3) :
    AccSpec (creator_step q acc).1 (creator_step q acc).2.1 (creator_step q acc).2.2
    ∧ ((creator_step q acc).2.2 = 1 ∨ (creator_step q acc).2.2 = 2
        ∨ (creator_step q acc).2.2 = 3 ∨ (creator_step q acc).2.2 = 4) := by
  obtain ⟨parts, ps, i⟩ := acc
  simp only at hacc hi
  unfold creator_step
  split
  · refine ⟨accSpec_snoc _ _ _ _ _ hacc ((creator_frag_spec i hi).1), ?_⟩
    rcases hi with h | h | h <;> subst h <;> simp
  · split
    · refine ⟨accSpec_snoc _ _ _ _ _ hacc ((creator_frag_spec i hi).2), ?_⟩
      rcases hi with h | h | h <;> subst h <;> simp
    · refine ⟨hacc, ?_⟩
      rcases hi with h | h | h
      · exact Or.inl h
      · exact Or.inr (Or.inl h)
      · exact Or.inr (Or.inr (Or.inl h))

theorem comp_step_spec (q : QueryRequest) (acc : List String × List SqlParam × Nat)
    (parts : List String) (ps : List SqlParam) (i : Nat)
    (hacc : AccSpec acc.1 acc.2.1 acc.2.2)
    (hi : acc.2.2 = 1 ∨ acc.2.2 = 2 ∨ acc.2.2 = 3 ∨ acc.2.2 = 4)
    (h : comp_step q acc = .ok (parts, ps, i)) :
    AccSpec parts ps i := by
  obtain ⟨parts1, ps1, i1⟩ := acc
  simp only at hacc hi
  unfold comp_step at h
  split at h
  · simp only [Except.ok.injEq, Prod.mk.injEq] at h
    obtain ⟨h1, h2, h3⟩ := h
    subst h1; subst h2; subst h3
    exact hacc
  · rename_i cf heqc
    split at h
    · exact Except.noConfusion h
    · rename_i w cps i3 heq
      have hfld : noDollar (if needs_join q then table_name q ++ "." ++ cf.field.value
          else cf.field.value) = true := by
        split
        · have hdot : noDollar "." = true := rfl
          simp [noDollar_append, table_name_noDollar, metricField_noDollar, hdot]
        · exact metricField_noDollar cf.field
      obtain ⟨hlen, hj, hfs⟩ := comp_frag_spec cf i1 _ hfld hi w cps i3 heq
      simp only [Except.ok.injEq, Prod.mk.injEq] at h
      obtain ⟨h1, h2, h3⟩ := h
      subst h1; subst h2; subst h3; subst hj
      cases cps with
      | nil => simp at hlen
      | cons p rest =>
        cases rest with
        | nil => exact accSpec_snoc _ _ _ _ _ hacc hfs
        | cons p2 r2 => simp at hlen

theorem filters_spec (q : QueryRequest) (parts : List String) (ps : List SqlParam) (i : Nat)
    (hdf : dateFieldOk q = true)
    (h : build_filters q = .ok (parts, ps, i)) :
    AccSpec parts ps i := by
  unfold build_filters at h
  split at h
  · exact Except.noConfusion h
  · rename_i acc heq
    obtain ⟨hacc, hi⟩ := date_step_spec q acc hdf heq
    have hacc2 := creator_step_spec q acc hacc hi
    exact comp_step_spec q (creator_step q acc) parts ps i hacc2.1 hacc2.2 h

theorem select_noDollar_aux (q : QueryRequest) (tn : Option String)
    (htn : ∀ t, tn = some t → noDollar t = true) (s : String)
    (h : _build_select q tn = .ok s) : noDollar s = true := by
  have h1 : noDollar "SELECT SUM(" = true := rfl
  have h2 : noDollar ")" = true := rfl
  have h3 : noDollar "SELECT COUNT(DISTINCT DATE(" = true := rfl
  have h4 : noDollar "))" = true := rfl
  have h5 : noDollar "SELECT COUNT(DISTINCT " = true := rfl
  have hdot : noDollar "." = true := rfl
  unfold _build_select at h
  split at h
  · simp only [Except.ok.injEq] at h
    subst h
    rfl
  · split at h
    · exact Except.noConfusion h
    · rename_i mf heq
      simp only [Except.ok.injEq] at h
      subst h
      cases tn with
      | none => simp [noDollar_append, metricField_noDollar, h1, h2]
      | some t => simp [noDollar_append, metricField_noDollar, h1, h2, hdot, htn t rfl]
  · split at h
    · exact Except.noConfusion h
    · rename_i mf heq
      split at h
      · simp only [Except.ok.injEq] at h
        subst h
        cases tn with
        | none => rfl
        | some t =>
          have h6 : noDollar "video_created_at" = true := rfl
          simp [noDollar_append, h3, h4, hdot, h6, htn t rfl]
      · split at h
        · simp only [Except.ok.injEq] at h
          subst h
          cases tn with
          | none => rfl
          | some t =>
            have h6 : noDollar "created_at" = true := rfl
            simp [noDollar_append, h3, h4, hdot, h6, htn t rfl]
        · simp only [Except.ok.injEq] at h
          subst h
          cases tn with
          | none => simp [noDollar_append, metricField_noDollar, h5, h2]
          | some t => simp [noDollar_append, metricField_noDollar, h5, h2, hdot, htn t rfl]

theorem select_noDollar (q : QueryRequest) (s : String)
    (h : _build_select q (select_table q) = .ok s) : noDollar s = true := by
  apply select_noDollar_aux q (select_table q) _ s h
  intro t ht
  unfold select_table at ht
  split at ht
  · injection ht with ht'
    subst ht'
    exact table_name_noDollar q
  · exact Option.noConfusion ht

theorem from_part_noDollar (q : QueryRequest) : noDollar (from_part q) = true := by
  have h1 : noDollar "FROM " = true := rfl
  have h2 : noDollar " INNER JOIN videos ON " = true := rfl
  have h3 : noDollar ".video_id = videos.id" = true := rfl
  unfold from_part
  split
  · simp [noDollar_append, table_name_noDollar, h1, h2, h3]
  · simp [noDollar_append, table_name_noDollar, h1]

/-- Claim C1 (code bug): for an exact-date filter whose value carries a
time component and falls on the last day of a month, `build_sql` does not
produce the half-open one-day window with parameters
`[startOfDay, startOfDay + 1 day]` that the specification states: the
end-of-window computation `start_dt.replace(day=start_dt.day + 1)`
raises `ValueError` because `day + 1` exceeds the month length. -/
theorem c1_exact_timestamp_month_end_raises :
    build_sql
      (QueryRequest.mk .videos .count none
        (some (DateFilter.mk "created_at" none none (some "2025-01-31T12:00:00")))
        none none false)
      = .error .dayOutOfRange := by
  rfl

/-- Claim C4 (counterexample): on Scenario 2's request, whose exact date
`"2025-11-28"` is date-only, `build_sql` emits `DATE(created_at) = $1`
with the single date parameter `2025-11-28`, not the half-open range
`created_at >= $1 AND created_at < $2` with two timestamp parameters
that the claim states. -/
theorem c4_scenario2_cex :
    build_sql
      (QueryRequest.mk .snapshots .sum (some .delta_views)
        (some (DateFilter.mk "created_at" none none (some "2025-11-28")))
        none none false)
      = .ok ("SELECT SUM(delta_views_count)\nFROM video_snapshots\nWHERE DATE(created_at) = $1",
             [SqlParam.date (PyDate.mk 2025 11 28)])
    ∧ ¬ ("created_at >= $1 AND created_at < $2".data <:+:
          "SELECT SUM(delta_views_count)\nFROM video_snapshots\nWHERE DATE(created_at) = $1".data) := by
  constructor
  · rfl
  · decide

/-- Claim C4 (amended): Scenario 2's request, whose exact date is
date-only, produces SQL selecting `SUM(delta_views_count)` whose date
condition is the date-truncated equality `DATE(created_at) = $1` with
the single parameter `2025-11-28` (the half-open window applies only to
timestamp-valued exact dates). -/
theorem c4_scenario2_amended :
    build_sql
      (QueryRequest.mk .snapshots .sum (some .delta_views)
        (some (DateFilter.mk "created_at" none none (some "2025-11-28")))
        none none false)
      = .ok ("SELECT SUM(delta_views_count)\nFROM video_snapshots\nWHERE DATE(created_at) = $1",
             [SqlParam.date (PyDate.mk 2025 11 28)]) := by
  rfl

/-- Claim C5 (counterexample): a timestamp-valued end-only bound is not
always passed through unchanged — for `"2025-11-28T00:00:00"` (which
carries a time component) the emitted parameter is promoted to
`23:59:59` of the same day. -/
theorem c5_midnight_end_bound_promoted_cex :
    build_sql
      (QueryRequest.mk .snapshots .count none
        (some (DateFilter.mk "created_at" none (some "2025-11-28T00:00:00") none))
        none none false)
      = .ok ("SELECT COUNT(*)\nFROM video_snapshots\nWHERE created_at <= $1",
             [SqlParam.datetime (PyDateTime.mk 2025 11 28 23 59 59 0)])
    ∧ PyDateTime.mk 2025 11 28 23 59 59 0 ≠ PyDateTime.mk 2025 11 28 0 0 0 0 := by
  constructor
  · rfl
  · decide

/-- Claim C6 (code bug): on a DistinctCount request for the pseudo-field
`video_created_at_date` with a join present, `build_sql` rewrites the
SELECT to `COUNT(DISTINCT DATE(...))` over the mapped timestamp column,
but qualifies that column with the snapshot table's name
(`video_snapshots.video_created_at`) instead of its owning table's name
(`videos.video_created_at`) — the snapshot table has no such column. -/
theorem c6_pseudo_field_join_qualification :
    build_sql
      (QueryRequest.mk .snapshots .distinct_count (some .video_created_at_date)
        none (some "abc") none false)
      = .ok ("SELECT COUNT(DISTINCT DATE(video_snapshots.video_created_at))\nFROM video_snapshots INNER JOIN videos ON video_snapshots.video_id = videos.id\nWHERE videos.creator_id = $1",
             [SqlParam.str "abc"]) := by
  rfl

/-- Claim C3 (counterexample): a creator filter that is present but an
empty string is silently dropped by Python truthiness — on the snapshot
table no INNER JOIN is established and no creator condition is emitted,
contradicting the claim's "exactly when ... a creator filter is
present". -/
theorem c3_empty_creator_cex :
    build_sql (QueryRequest.mk .snapshots .count none none (some "") none false)
      = .ok ("SELECT COUNT(*)\nFROM video_snapshots\n", [])
    ∧ ¬ ("INNER JOIN".data <:+: "SELECT COUNT(*)\nFROM video_snapshots\n".data) := by
  constructor
  · rfl
  · decide

/-- Claim C2 (counterexample): the date filter's field is a free-form
string; when it contains a `$n` of its own, the output SQL no longer
contains exactly the placeholders `$1..$N`. -/
theorem c2_dollar_in_field_cex :
    build_sql
      (QueryRequest.mk .videos .count none
        (some (DateFilter.mk "created_at $9" none none (some "2025-11-28")))
        none none false)
      = .ok ("SELECT COUNT(*)\nFROM videos\nWHERE DATE(created_at $9) = $1",
             [SqlParam.date (PyDate.mk 2025 11 28)])
    ∧ sqlPlaceholders "SELECT COUNT(*)\nFROM videos\nWHERE DATE(created_at $9) = $1"
        ≠ List.range' 1 1 := by
  constructor
  · rfl
  · decide

/-- Claim C9 (counterexample): constructing a `ComparisonFilter` with the
operator `"<>"` succeeds — the request model attaches no validator to
the `operator` field, so construction does not reject it. -/
theorem c9_construction_accepts_invalid_operator_cex :
    ComparisonFilter.model_validate "views_count" "<>" 100
        = some (ComparisonFilter.mk .views "<>" 100)
    ∧ (ComparisonFilter.model_validate "views_count" "<>" 100).isSome = true := by
  constructor
  · rfl
  · rfl

/-- Claim C9 (amended): the request model does not validate the operator
at construction time at all — for every enum field name, any operator
string and any integer value, construction succeeds and stores the
operator verbatim; the operator is only checked later, at compile time,
inside `_build_comparison_filter`. -/
theorem c9_construction_unvalidated_operator (f : MetricField) (op : String) (v : Int) :
    ComparisonFilter.model_validate f.value op v = some (ComparisonFilter.mk f op v) := by
  cases f <;> rfl

/-- Claim C10: `build_sql` never reads the `use_delta` flag — its output
(SQL text and parameter list, or error) is identical for `use_delta`
true and false on otherwise identical requests. -/
theorem c10_use_delta_independent (t : TableType) (m : MetricType) (mf : Option MetricField)
    (df : Option DateFilter) (c : Option String) (cmp : Option ComparisonFilter) (b₁ b₂ : Bool) :
    build_sql (QueryRequest.mk t m mf df c cmp b₁)
      = build_sql (QueryRequest.mk t m mf df c cmp b₂) := rfl

/-- Claim C7: for every request with metric Sum or DistinctCount and no
metric field, `build_sql` fails with the corresponding missing-field
error and returns no SQL text or parameter list. -/
theorem c7_missing_metric_field (q : QueryRequest)
    (hm : q.metric_type = .sum ∨ q.metric_type = .distinct_count)
    (hf : q.metric_field = none) :
    ∃ e, build_sql q = .error e ∧ (e = .missingFieldSum ∨ e = .missingFieldDistinctCount) := by
  rcases q with ⟨t, m, mf, df, c, cmp, b⟩
  simp only at hf hm
  subst hf
  rcases hm with hm | hm <;> subst hm
  · exact ⟨.missingFieldSum, rfl, Or.inl rfl⟩
  · exact ⟨.missingFieldDistinctCount, rfl, Or.inr rfl⟩

/-- Claim C7 (witness): the missing-field failure at a concrete request. -/
theorem c7_missing_metric_field_witness :
    ∃ e, build_sql (QueryRequest.mk .videos .sum none none none none false) = .error e
      ∧ (e = .missingFieldSum ∨ e = .missingFieldDistinctCount) :=
  c7_missing_metric_field (QueryRequest.mk .videos .sum none none none none false)
    (Or.inl rfl) rfl

/-- Claim C2 (amended): for every request whose date-filter field (a
free-form string in the request model) contains no dollar sign, when
`build_sql` succeeds the SQL text contains exactly the positional
placeholders `$1..$N` in order, with no gaps and no reuse, where `N` is
the length of the returned parameter list; numbering is global across
the date, creator and comparison filters and starts at 1, and the i-th
parameter corresponds to placeholder `$i`. -/
theorem c2_placeholder_integrity (q : QueryRequest) (sql : String) (ps : List SqlParam)
    (hdf : dateFieldOk q = true)
    (h : build_sql q = .ok (sql, ps)) :
    sqlPlaceholders sql = List.range' 1 ps.length := by
  unfold build_sql at h
  split at h
  · exact Except.noConfusion h
  · rename_i sel hsel
    split at h
    · exact Except.noConfusion h
    · rename_i parts1 params1 i1 heqf
      simp only [Except.ok.injEq, Prod.mk.injEq] at h
      obtain ⟨hsql, hps⟩ := h
      subst hsql; subst hps
      have hacc := filters_spec q _ _ _ hdf heqf
      have hselnd := select_noDollar q sel hsel
      have hnl : noDollar "\n" = true := rfl
      have e : (sel ++ "\n" ++ from_part q ++ "\n" ++ mkWhere parts1).data
          = sel.data ++ ("\n".data ++ ((from_part q).data ++ ("\n".data ++ (mkWhere parts1).data))) := by
        simp only [String.data_append, List.append_assoc]
      unfold sqlPlaceholders
      rw [e, scanP_str_pfx sel hselnd, scanP_str_pfx "\n" hnl,
          scanP_str_pfx (from_part q) (from_part_noDollar q), scanP_str_pfx "\n" hnl]
      rcases hacc with ⟨hp, hq, _⟩ | ⟨n, hlen, _, hfs⟩
      · subst hp; subst hq
        rfl
      · rcases parts1 with _ | ⟨p0, prest⟩
        · exfalso
          simp [FragSpec, joinAnd, scanP] at hfs
        · have hmk : mkWhere (p0 :: prest) = "WHERE " ++ joinAnd (p0 :: prest) := rfl
          rw [hmk]
          have e2 : ("WHERE " ++ joinAnd (p0 :: prest)).data
              = "WHERE ".data ++ (joinAnd (p0 :: prest)).data := String.data_append _ _
          have hW : noDollar "WHERE " = true := rfl
          rw [e2, scanP_str_pfx "WHERE " hW, hfs, hlen]
          show List.range' 1 n ++ [1 + n] = List.range' 1 (n + 1)
          have hc := @List.range'_concat 1 1 n
          rw [one_mul] at hc
          exact hc.symm

/-- Claim C2 (witness): the amended placeholder-integrity theorem at a
concrete request carrying all three filters. -/
theorem c2_placeholder_integrity_witness :
    sqlPlaceholders "SELECT COUNT(*)\nFROM video_snapshots INNER JOIN videos ON video_snapshots.video_id = videos.id\nWHERE DATE(video_snapshots.created_at) >= $1 AND DATE(video_snapshots.created_at) <= $2 AND videos.creator_id = $3 AND video_snapshots.views_count > $4"
      = List.range' 1 4 :=
  c2_placeholder_integrity
    (QueryRequest.mk .snapshots .count none
      (some (DateFilter.mk "created_at" (some "2025-11-01") (some "2025-11-05") none))
      (some "abc") (some (ComparisonFilter.mk .views ">" 100)) false)
    "SELECT COUNT(*)\nFROM video_snapshots INNER JOIN videos ON video_snapshots.video_id = videos.id\nWHERE DATE(video_snapshots.created_at) >= $1 AND DATE(video_snapshots.created_at) <= $2 AND videos.creator_id = $3 AND video_snapshots.views_count > $4"
    [SqlParam.date (PyDate.mk 2025 11 1), SqlParam.date (PyDate.mk 2025 11 5),
     SqlParam.str "abc", SqlParam.int 100]
    rfl rfl

/-- Claim C5 (amended): a date filter with only `endDate` populated
compiles to a one-sided `<=` with exactly one parameter; a date-only end
bound is compared through date truncation (`DATE(col) <= $i`), and a
timestamp-valued end bound is passed through unchanged unless its hour
and minute are both zero, in which case it is promoted to `23:59:59` of
the same day (overwriting the seconds). -/
theorem c5_end_only_amended (df : DateFilter) (i : Nat) (s : String) (v : PyDateValue)
    (hex : truthy df.exact_date = false) (hst : truthy df.start_date = false)
    (hend : df.end_date = some s) (hs : s ≠ "")
    (hp : parse_date_or_datetime s = .ok v) :
    (∀ x, v = .d x →
        _build_date_filter df i
          = .ok ("DATE(" ++ df.field ++ ") <= $" ++ Nat.repr i, [SqlParam.date x], i + 1))
    ∧ (∀ t, v = .dt t →
        _build_date_filter df i
          = .ok (df.field ++ " <= $" ++ Nat.repr i,
                 [SqlParam.datetime (if t.hour == 0 && t.minute == 0 then
                     PyDateTime.mk t.year t.month t.day 23 59 59 t.microsecond else t)],
                 i + 1)) := by
  have hs' : (s == "") = false := by simpa using hs
  have htr : truthy (some s) = true := by simp [truthy, hs']
  constructor
  · intro x hx
    subst hx
    unfold _build_date_filter
    simp [hex, hst, hend, htr, hp]
  · intro t ht
    subst ht
    unfold _build_date_filter
    simp [hex, hst, hend, htr, hp]

/-- Claim C5 (witness): the amended end-only theorem at a concrete
timestamp-valued end bound not at midnight — passed through unchanged. -/
theorem c5_end_only_amended_witness :
    _build_date_filter (DateFilter.mk "created_at" none (some "2025-11-28T10:30:00") none) 1
      = .ok ("created_at <= $1", [SqlParam.datetime (PyDateTime.mk 2025 11 28 10 30 0 0)], 2) := by
  have h := (c5_end_only_amended
      (DateFilter.mk "created_at" none (some "2025-11-28T10:30:00") none) 1
      "2025-11-28T10:30:00" (.dt (PyDateTime.mk 2025 11 28 10 30 0 0))
      rfl rfl rfl (by decide) rfl).2 (PyDateTime.mk 2025 11 28 10 30 0 0) rfl
  rw [h]
  rfl

/-- Claim C8 (amended): provided the SELECT stage and the date filter
compile (failures there take priority, since they are raised first), a
comparison filter whose operator is outside the closed set makes
`build_sql` fail with `InvalidOperator`; with an operator inside the
set, the comparison compiler emits `<field> <operator> $i` with exactly
one integer parameter. -/
theorem c8_operator_validation (q : QueryRequest) (cf : ComparisonFilter)
    (hc : q.comparison_filter = some cf)
    (hsel : select_ok q = true)
    (hdate : date_filter_ok q = true) :
    (valid_operators.contains cf.operator = false →
        build_sql q = .error (.invalidOperator cf.operator))
    ∧ (valid_operators.contains cf.operator = true →
        ∀ i fo, ∃ fld, _build_comparison_filter cf i fo
            = .ok (fld ++ " " ++ cf.operator ++ " $" ++ Nat.repr i,
                   [SqlParam.int cf.value], i + 1)) := by
  constructor
  · intro hop
    unfold select_ok at hsel
    obtain ⟨sel, hsel'⟩ : ∃ sel, _build_select q (select_table q) = .ok sel := by
      cases h' : _build_select q (select_table q) with
      | error e => rw [h'] at hsel; exact absurd hsel (by simp [Except.toOption])
      | ok sel => exact ⟨sel, rfl⟩
    obtain ⟨acc, hacc⟩ : ∃ acc, date_step q = .ok acc := by
      unfold date_filter_ok at hdate
      unfold date_step
      cases hdf' : q.date_filter with
      | none => exact ⟨_, rfl⟩
      | some df =>
        rw [hdf'] at hdate
        dsimp only at hdate ⊢
        cases h2 : _build_date_filter (qualify_df q df) 1 with
        | error e => rw [h2] at hdate; exact absurd hdate (by simp [Except.toOption])
        | ok v =>
          obtain ⟨w, ps2, i2⟩ := v
          exact ⟨([w], ps2, i2), rfl⟩
    have hcs : comp_step q (creator_step q acc) = .error (.invalidOperator cf.operator) := by
      unfold comp_step
      rw [hc]
      dsimp only
      unfold _build_comparison_filter
      rw [hop]
      simp
    unfold build_sql
    rw [hsel']
    dsimp only
    unfold build_filters
    rw [hacc]
    dsimp only
    rw [hcs]
  · intro hop i fo
    unfold _build_comparison_filter
    rw [hop]
    exact ⟨_, rfl⟩

/-- Claim C8 (witness): the amended operator-validation theorem at a
concrete request with operator `"<>"`. -/
theorem c8_operator_validation_witness :
    build_sql (QueryRequest.mk .videos .count none none none
        (some (ComparisonFilter.mk .views "<>" 5)) false)
      = .error (.invalidOperator "<>") :=
  (c8_operator_validation
    (QueryRequest.mk .videos .count none none none
      (some (ComparisonFilter.mk .views "<>" 5)) false)
    (ComparisonFilter.mk .views "<>" 5) rfl rfl rfl).1 rfl

theorem date_len_spec (df : DateFilter) (w : String) (ps : List SqlParam) (j : Nat)
    (h : _build_date_filter df 1 = .ok (w, ps, j)) :
    j = ps.length + 1 ∧ 1 ≤ ps.length := by
  unfold _build_date_filter at h
  split at h
  · split at h
    · exact Except.noConfusion h
    · split at h
      · exact Except.noConfusion h
      · simp only [Except.ok.injEq, Prod.mk.injEq] at h
        obtain ⟨_, hps, hj⟩ := h
        subst hps; subst hj
        exact ⟨rfl, by simp⟩
    · simp only [Except.ok.injEq, Prod.mk.injEq] at h
      obtain ⟨_, hps, hj⟩ := h
      subst hps; subst hj
      exact ⟨rfl, by simp⟩
  · split at h
    · split at h
      · exact Except.noConfusion h
      · split at h
        · exact Except.noConfusion h
        · split at h
          · simp only [Except.ok.injEq, Prod.mk.injEq] at h
            obtain ⟨_, hps, hj⟩ := h
            subst hps; subst hj
            exact ⟨rfl, by simp⟩
          · simp only [Except.ok.injEq, Prod.mk.injEq] at h
            obtain ⟨_, hps, hj⟩ := h
            subst hps; subst hj
            exact ⟨rfl, by simp⟩
    · split at h
      · split at h
        · exact Except.noConfusion h
        · simp only [Except.ok.injEq, Prod.mk.injEq] at h
          obtain ⟨_, hps, hj⟩ := h
          subst hps; subst hj
          exact ⟨rfl, by simp⟩
        · simp only [Except.ok.injEq, Prod.mk.injEq] at h
          obtain ⟨_, hps, hj⟩ := h
          subst hps; subst hj
          exact ⟨rfl, by simp⟩
      · split at h
        · split at h
          · exact Except.noConfusion h
          · simp only [Except.ok.injEq, Prod.mk.injEq] at h
            obtain ⟨_, hps, hj⟩ := h
            subst hps; subst hj
            exact ⟨rfl, by simp⟩
          · simp only [Except.ok.injEq, Prod.mk.injEq] at h
            obtain ⟨_, hps, hj⟩ := h
            subst hps; subst hj
            exact ⟨rfl, by simp⟩
        · exact Except.noConfusion h

theorem date_step_len (q : QueryRequest) (acc : List String × List SqlParam × Nat)
    (h : date_step q = .ok acc) : acc.2.2 = acc.2.1.length + 1 := by
  unfold date_step at h
  split at h
  · simp only [Except.ok.injEq] at h
    subst h
    rfl
  · split at h
    · exact Except.noConfusion h
    · rename_i w ps i heq
      obtain ⟨hj, _⟩ := date_len_spec _ w ps i heq
      simp only [Except.ok.injEq] at h
      subst h
      exact hj

/-- Claim C3 (amended): `build_sql` establishes the implicit INNER JOIN
exactly when the table is the snapshot table and the creator filter is a
present, non-empty string (a present-but-empty creator string is
falsy in the source and is dropped entirely).  With the join, the SQL
contains `INNER JOIN videos ON video_snapshots.video_id = videos.id`
and the creator condition fragment is `videos.creator_id = $k`,
qualified by the aggregate table's name, with the creator string as the
parameter at position `k`; without the join (aggregate table), the
fragment is the unqualified `creator_id = $k`. -/
theorem c3_join_amended (q : QueryRequest) (c : String) (sql : String) (ps : List SqlParam)
    (hc : q.creator_id_filter = some c) (hne : c ≠ "")
    (h : build_sql q = .ok (sql, ps)) :
    (needs_join q = true ↔ q.table = .snapshots)
    ∧ (q.table = .snapshots →
        ("INNER JOIN videos ON video_snapshots.video_id = videos.id".data <:+: sql.data)
        ∧ ∃ parts i k, build_filters q = .ok (parts, ps, i)
            ∧ ("videos.creator_id = $" ++ Nat.repr k) ∈ parts ∧ ps[k - 1]? = some (.str c))
    ∧ (q.table = .videos →
        from_part q = "FROM videos"
        ∧ ∃ parts i k, build_filters q = .ok (parts, ps, i)
            ∧ ("creator_id = $" ++ Nat.repr k) ∈ parts ∧ ps[k - 1]? = some (.str c)) := by
  have hcb : (c == "") = false := by simpa using hne
  have htr : truthy q.creator_id_filter = true := by simp [truthy, hc, hcb]
  have hiff : needs_join q = true ↔ q.table = .snapshots := by
    unfold needs_join
    rw [htr]
    cases hqt : q.table <;> simp [table_name, hqt]
  refine ⟨hiff, ?_, ?_⟩
  · -- snapshot table: join established
    intro ht
    have hnj : needs_join q = true := hiff.mpr ht
    have htn : table_name q = "video_snapshots" := by simp [table_name, ht]
    unfold build_sql at h
    split at h
    · exact Except.noConfusion h
    · rename_i sel hsel
      split at h
      · exact Except.noConfusion h
      · rename_i parts1 params1 i1 heqf0
        simp only [Except.ok.injEq, Prod.mk.injEq] at h
        obtain ⟨hsql, hps⟩ := h
        subst hsql; subst hps
        have heqf := heqf0
        unfold build_filters at heqf
        split at heqf
        · exact Except.noConfusion heqf
        · rename_i acc hds
          obtain ⟨partsD, psD, iD⟩ := acc
          have hlenD : iD = psD.length + 1 := date_step_len q _ hds
          have hcs : creator_step q (partsD, psD, iD)
              = (partsD ++ ["videos.creator_id = $" ++ Nat.repr iD],
                 psD ++ [SqlParam.str c], iD + 1) := by
            unfold creator_step
            simp [hnj, hc]
          rw [hcs] at heqf
          have hfp : from_part q
              = "FROM video_snapshots INNER JOIN videos ON video_snapshots.video_id = videos.id" := by
            simp [from_part, hnj, htn]
          constructor
          · -- infix
            refine ⟨(sel ++ "\n" ++ "FROM video_snapshots ").data,
                    ("\n" ++ mkWhere parts1).data, ?_⟩
            rw [hfp]
            simp only [String.data_append, List.append_assoc]
            rfl
          · -- the creator fragment and parameter
            refine ⟨parts1, i1, iD, heqf0, ?_, ?_⟩
            · -- membership
              unfold comp_step at heqf
              split at heqf
              · simp only [Except.ok.injEq, Prod.mk.injEq] at heqf
                obtain ⟨h1, _, _⟩ := heqf
                subst h1
                simp
              · split at heqf
                · exact Except.noConfusion heqf
                · simp only [Except.ok.injEq, Prod.mk.injEq] at heqf
                  obtain ⟨h1, _, _⟩ := heqf
                  subst h1
                  simp
            · -- parameter position
              have hidx : iD - 1 = psD.length := by omega
              rw [hidx]
              unfold comp_step at heqf
              split at heqf
              · simp only [Except.ok.injEq, Prod.mk.injEq] at heqf
                obtain ⟨_, h2, _⟩ := heqf
                subst h2
                exact List.getElem?_concat_length psD (SqlParam.str c)
              · split at heqf
                · exact Except.noConfusion heqf
                · simp only [Except.ok.injEq, Prod.mk.injEq] at heqf
                  obtain ⟨_, h2, _⟩ := heqf
                  subst h2
                  rw [List.getElem?_append]
                  have hlt : psD.length < (psD ++ [SqlParam.str c]).length := by simp
                  rw [if_pos hlt]
                  exact List.getElem?_concat_length psD (SqlParam.str c)
  · -- aggregate table: unqualified creator condition, no join
    intro ht
    have hnjF : needs_join q = false := by
      cases hb : needs_join q
      · rfl
      · have := hiff.mp hb
        rw [ht] at this
        exact TableType.noConfusion this
    have hfpv : from_part q = "FROM videos" := by
      simp [from_part, hnjF, table_name, ht]
    unfold build_sql at h
    split at h
    · exact Except.noConfusion h
    · rename_i sel hsel
      split at h
      · exact Except.noConfusion h
      · rename_i parts1 params1 i1 heqf0
        simp only [Except.ok.injEq, Prod.mk.injEq] at h
        obtain ⟨hsql, hps⟩ := h
        subst hsql; subst hps
        have heqf := heqf0
        unfold build_filters at heqf
        split at heqf
        · exact Except.noConfusion heqf
        · rename_i acc hds
          obtain ⟨partsD, psD, iD⟩ := acc
          have hlenD : iD = psD.length + 1 := date_step_len q _ hds
          have hcs : creator_step q (partsD, psD, iD)
              = (partsD ++ ["creator_id = $" ++ Nat.repr iD],
                 psD ++ [SqlParam.str c], iD + 1) := by
            unfold creator_step
            simp [hnjF, hc, truthy, hcb]
          rw [hcs] at heqf
          refine ⟨hfpv, parts1, i1, iD, heqf0, ?_, ?_⟩
          · unfold comp_step at heqf
            split at heqf
            · simp only [Except.ok.injEq, Prod.mk.injEq] at heqf
              obtain ⟨h1, _, _⟩ := heqf
              subst h1
              simp
            · split at heqf
              · exact Except.noConfusion heqf
              · simp only [Except.ok.injEq, Prod.mk.injEq] at heqf
                obtain ⟨h1, _, _⟩ := heqf
                subst h1
                simp
          · have hidx : iD - 1 = psD.length := by omega
            rw [hidx]
            unfold comp_step at heqf
            split at heqf
            · simp only [Except.ok.injEq, Prod.mk.injEq] at heqf
              obtain ⟨_, h2, _⟩ := heqf
              subst h2
              exact List.getElem?_concat_length psD (SqlParam.str c)
            · split at heqf
              · exact Except.noConfusion heqf
              · simp only [Except.ok.injEq, Prod.mk.injEq] at heqf
                obtain ⟨_, h2, _⟩ := heqf
                subst h2
                rw [List.getElem?_append]
                have hlt : psD.length < (psD ++ [SqlParam.str c]).length := by simp
                rw [if_pos hlt]
                exact List.getElem?_concat_length psD (SqlParam.str c)

/-- Claim C3 (witness): the amended join theorem at a concrete snapshot
request with creator filter `"abc"` — the emitted SQL contains the
INNER JOIN. -/
theorem c3_join_amended_witness :
    ("INNER JOIN videos ON video_snapshots.video_id = videos.id".data <:+:
      "SELECT COUNT(*)\nFROM video_snapshots INNER JOIN videos ON video_snapshots.video_id = videos.id\nWHERE videos.creator_id = $1".data) :=
  ((c3_join_amended
      (QueryRequest.mk .snapshots .count none none (some "abc") none false)
      "abc"
      "SELECT COUNT(*)\nFROM video_snapshots INNER JOIN videos ON video_snapshots.video_id = videos.id\nWHERE videos.creator_id = $1"
      [SqlParam.str "abc"] rfl (by decide) rfl).2.1 rfl).1

/-- Claim C8 (counterexample): a request with an out-of-set comparison
operator need not fail with `InvalidOperator` — when the SELECT stage
fails first (Sum without a metric field), `build_sql` fails with the
missing-field error instead, because SELECT is built before the
comparison filter is reached. -/
theorem c8_error_priority_cex :
    build_sql (QueryRequest.mk .videos .sum none none none
        (some (ComparisonFilter.mk .views "<>" 1)) false)
      = .error .missingFieldSum
    ∧ CompileError.missingFieldSum ≠ CompileError.invalidOperator "<>" := by
  constructor
  · rfl
  · decide
